import Mathlib

/-!
Shallow embedding of the two capture backends of DeepLabCut-live-GUI:
`dlclivegui/camera/mac_opencv.py` (generic OpenCV backend, class
`Mac_OpenCVCam`) and `dlclivegui/camera/sentech_usb.py` (machine-vision
SDK backend, class `SentechCam`).

Conventions of the embedding:
* Wall-clock instants (values of `time.time()`) are rationals.
* A frame (`numpy` array of `ndim` 2 or 3) is a nested list of natural
  pixel values; the `ndim == 2` / `ndim == 3` distinction of the source
  is carried by the constructor.
* Python exceptions are values of `PyErr`; a method that can raise
  returns `Except PyErr`.  Raising the undefined identifier
  `DLCLiveCameraError` (only `CameraError` is imported in
  `mac_opencv.py`) is a Python `NameError`, embedded as
  `PyErr.nameError`.
* The busy-wait loop of `SentechCam.get_image_on_time` is driven by the
  explicit list of successive `time.time()` readings it observes, one
  per loop iteration.
* External library calls are embedded by their documented meaning:
  `cv2.cvtColor(-, COLOR_RGB2BGR)` reverses the channel axis of a
  3-channel frame, `np.uint8` reduces every pixel value mod 256, and
  `imutils.rotate_bound` is kept as an explicit function parameter
  (its numeric interpolation is outside the scope of the claims).
-/

namespace DLCLiveGUI

/-- A pixel buffer: a 2-dimensional (grayscale) or 3-dimensional (color)
array, exactly the two `ndim` cases `get_image_on_time` distinguishes. -/
inductive Frame where
  | gray  (data : List (List Nat))
  | color (data : List (List (List Nat)))
deriving DecidableEq, Repr

/-- `numpy` `ndim` of the buffer. -/
def Frame.ndim : Frame → Nat
  | .gray _ => 2
  | .color _ => 3

/-- Number of rows of the buffer (length of axis 0). -/
def Frame.height : Frame → Nat
  | .gray d => d.length
  | .color d => d.length

/-- Lengths of the rows of the buffer (axis-1 extents, row by row). -/
def Frame.rowWidths : Frame → List Nat
  | .gray d => d.map List.length
  | .color d => d.map List.length

/-- Python slice `l[a:b]` for nonnegative bounds: drop `a`, keep `b - a`. -/
def pySlice (a b : Nat) (l : List α) : List α := (l.drop a).take (b - a)

/-- The slicing `frame[top:bottom, left:right]` on the first two axes, as
written in `get_image_on_time`
(`frame[self.crop[2] : self.crop[3], self.crop[0] : self.crop[1]]` with
`crop = [left, right, top, bottom]`). -/
def crop2 (left right top bottom : Nat) (d : List (List α)) : List (List α) :=
  (pySlice top bottom d).map (pySlice left right)

/-- Crop applied to a frame; the channel axis of a color frame is untouched. -/
def Frame.cropFrame (left right top bottom : Nat) : Frame → Frame
  | .gray d => .gray (crop2 left right top bottom d)
  | .color d => .color (crop2 left right top bottom d)

/-- `cv2.cvtColor(frame, cv2.COLOR_RGB2BGR)`: reversal of the channel axis
of a 3-channel frame (the source only calls it under `frame.ndim == 3`). -/
def Frame.swapRB : Frame → Frame
  | .gray d => .gray d
  | .color d => .color (d.map (fun row => row.map List.reverse))

/-- `np.uint8` applied to a pixel buffer: every value reduced mod 256. -/
def np_uint8 : Frame → Frame
  | .gray d => .gray (d.map (List.map (· % 256)))
  | .color d => .color (d.map (fun row => row.map (List.map (· % 256))))

/-- Python exceptions raised by the embedded code.  `nameError s` is the
`NameError` produced by evaluating an identifier `s` that is not bound in
the module (as `raise DLCLiveCameraError(...)` does in `mac_opencv.py`,
which imports only `Camera` and `CameraError`); `cameraError msg` is
`CameraError(msg)`. -/
inductive PyErr where
  | nameError (missing : String)
  | cameraError (msg : String)
deriving DecidableEq, Repr

/-! ## Generic Video Backend: `Mac_OpenCVCam` (`mac_opencv.py`) -/

/-- The attributes of a `Mac_OpenCVCam` instance that
`get_image_on_time` reads.  `rotate` and `fps` are numbers (`0` embeds the
falsy values `0`/`None`), `crop` is `None` or `[left, right, top, bottom]`,
`cv2_color` is the value `self.cap.get(cv2.CAP_PROP_MODE)` recorded by
`set_capture_device`, `last_cap_read` the time of the last successful read. -/
structure MacState where
  id : Int
  video : Bool
  rotate : ℚ
  crop : Option (Nat × Nat × Nat × Nat)
  cv2_color : ℚ
  fps : ℚ
  last_cap_read : ℚ
deriving DecidableEq, Repr

/-- `Mac_OpenCVCam.__init__`: a device id of `-1` takes the `else` branch,
which evaluates the unbound identifier `DLCLiveCameraError`, so Python
raises `NameError`; any other id records `video = False` and the
configuration.  (`cv2_color` and `last_cap_read` are first assigned by
`set_capture_device`; they start here at `0` as inert placeholders.) -/
def Mac_OpenCVCam_init (device : Int) (rotate : ℚ)
    (crop : Option (Nat × Nat × Nat × Nat)) (fps : ℚ) :
    Except PyErr MacState :=
  if device ≠ -1 then
    .ok { id := device, video := false, rotate := rotate, crop := crop,
          cv2_color := 0, fps := fps, last_cap_read := 0 }
  else
    .error (.nameError "DLCLiveCameraError")

/-- `Mac_OpenCVCam.set_capture_device` records
`self.cv2_color = self.cap.get(cv2.CAP_PROP_MODE)` (the device-reported
mode); the embedding keeps only this state effect. -/
def Mac_set_capture_device (st : MacState) (mode : ℚ) : MacState :=
  { st with cv2_color := mode }

/-- `Mac_OpenCVCam.get_image_on_time`.  `rotate_bound` stands for
`imutils.rotate_bound`; `readResult` is the outcome of `self.cap.read()`
(`none` embeds `ret == False`); `now` is the `time.time()` reading stored
into `self.last_cap_read` after post-processing.  On a failed read the
method raises `CameraError` and the state is untouched.  (The
`if self.video` busy-wait only spins on the clock and is dead for this
backend: `__init__` always sets `video = False`.) -/
def Mac_get_image_on_time (st : MacState) (rotate_bound : Frame → ℚ → Frame)
    (readResult : Option Frame) (now : ℚ) :
    Except PyErr (Frame × ℚ) × MacState :=
  match readResult with
  | some frame =>
      let f1 := if st.rotate ≠ 0 then rotate_bound frame st.rotate else frame
      let f2 := match st.crop with
        | some (l, r, t, b) => f1.cropFrame l r t b
        | none => f1
      let f3 := if f2.ndim = 3 ∧ st.cv2_color = 1 then f2.swapRB else f2
      (.ok (f3, now), { st with last_cap_read := now })
  | none =>
      (.error (.cameraError "OpenCV VideoCapture.read did not return an image!"), st)

/-! ## Machine-Vision SDK Backend: `SentechCam` (`sentech_usb.py`) -/

/-- `SentechCam.set_im_size(res)`: raises
`CameraError("Resolution is not set!")` whenever `res` is falsy, crop or
no crop; otherwise the size is `(res[0], res[1])` when `self.crop is None`
and `(crop[3] - crop[2], crop[1] - crop[0])` otherwise
(`crop = [left, right, top, bottom]`). -/
def SentechCam_set_im_size (crop : Option (Int × Int × Int × Int))
    (res : Option (Int × Int)) : Except PyErr (Int × Int) :=
  match res with
  | none => .error (.cameraError "Resolution is not set!")
  | some (w, h) =>
      .ok (match crop with
           | none => (w, h)
           | some (l, r, t, b) => (b - t, r - l))

/-- The per-instance state of `SentechCam` that the pacing loop uses. -/
structure SentechState where
  id : Int
  crop : Option (Int × Int × Int × Int)
  im_size : Int × Int
  fps : ℚ
  next_frame : ℚ
deriving DecidableEq, Repr

/-- `SentechCam.__init__`: stores the crop, calls
`set_im_size(resolution)` (whose `CameraError` propagates), and starts the
pacing deadline `self.next_frame` at `0`. -/
def SentechCam_init (device : Int) (resolution : Option (Int × Int))
    (crop : Option (Int × Int × Int × Int)) (fps : ℚ) :
    Except PyErr SentechState :=
  match SentechCam_set_im_size crop resolution with
  | .error e => .error e
  | .ok sz =>
      .ok { id := device, crop := crop, im_size := sz, fps := fps, next_frame := 0 }

/-- Python truthiness of an optional number (`None` and `0` are falsy). -/
def pyTruthyQ : Option ℚ → Bool
  | none => false
  | some x => x ≠ 0

/-- The calls `SentechCam.set_capture_device` makes on the SDK camera
handle: which arguments reach `image_shape`, `exposure` and `gain`. -/
structure SDKCalls where
  image_shape : Option (Int × Int)
  exposure : Option ℚ
  gain : Option ℚ
deriving DecidableEq, Repr

/-- `SentechCam.set_capture_device` (SDK side effects only):
`self.im_size` is a 2-tuple, hence always truthy, so
`self.cap.image_shape((self.im_size[0], self.im_size[1]))` always runs and
forwards `im_size` verbatim; `exposure` and `gain` are forwarded exactly
when truthy. -/
def SentechCam_set_capture_device (im_size : Int × Int)
    (exposure gain : Option ℚ) : SDKCalls :=
  { image_shape := some (im_size.1, im_size.2),
    exposure := if pyTruthyQ exposure then exposure else none,
    gain := if pyTruthyQ gain then gain else none }

/-- `SentechCam.get_image`: `np.uint8(self.cap.grab_frame().as_numpy())`.
No rotation, no crop, no channel conversion is applied. -/
def SentechCam_get_image (raw : Frame) : Frame := np_uint8 raw

/-- Result of one call of `SentechCam.get_image_on_time`: the returned
`(frame, timestamp)` pair or the propagated exception, the deadline
`self.next_frame` after the call, and the wall-clock instant at which the
call returns (or the exception escapes) — the poll reading plus the
duration of the acquisition. -/
structure SentechPollResult where
  outcome : Except PyErr (Frame × ℚ)
  next_frame : ℚ
  ret_time : ℚ
deriving Repr

/-- `SentechCam.get_image_on_time`.  Each loop iteration reads
`cur_time = time.time()` (the successive readings are the elements of
`clock`); once `cur_time > self.next_frame` it calls `get_image` on the
grabbed raw frame `acq` (an exception from the grab propagates, leaving
`self.next_frame` untouched), records `timestamp = cur_time`, and sets
`self.next_frame = max(self.next_frame + 1.0/self.fps,
cur_time + 0.5/self.fps)`.  `acqDur` is the time the acquisition takes,
so the call returns at `cur_time + acqDur`.  `none` means the clock list
was exhausted before the deadline passed (the loop is still spinning). -/
def SentechCam_get_image_on_time (fps nf : ℚ) (acq : Except PyErr Frame)
    (acqDur : ℚ) : List ℚ → Option SentechPollResult
  | [] => none
  | t :: ts =>
      if nf < t then
        match acq with
        | .error e => some ⟨.error e, nf, t + acqDur⟩
        | .ok f =>
            some ⟨.ok (SentechCam_get_image f, t),
                  max (nf + 1 / fps) (t + (1 / 2) / fps), t + acqDur⟩
      else SentechCam_get_image_on_time fps nf acq acqDur ts

/-! ## Shared lemmas about the throttled-poll loop -/

/-- Anatomy of a successful `SentechCam.get_image_on_time` call: the
returned frame is the uint8-converted raw frame, the timestamp is one of
the poll readings and the deadline had passed at it, the new deadline is
the max formula at that reading, and the call returns `acqDur` later. -/
theorem sentech_success_spec (fps nf acqDur : ℚ) (fr : Frame) (clock : List ℚ)
    (r : SentechPollResult) (f : Frame) (ts : ℚ)
    (hr : SentechCam_get_image_on_time fps nf (.ok fr) acqDur clock = some r)
    (ho : r.outcome = .ok (f, ts)) :
    f = SentechCam_get_image fr ∧ nf < ts ∧ ts ∈ clock ∧
      r.next_frame = max (nf + 1 / fps) (ts + (1 / 2) / fps) ∧
      r.ret_time = ts + acqDur := by
  induction clock with
  | nil => simp [SentechCam_get_image_on_time] at hr
  | cons t rest ih =>
      rw [SentechCam_get_image_on_time] at hr
      by_cases h : nf < t
      · rw [if_pos h] at hr
        injection hr with hr
        subst hr
        have hpair : (SentechCam_get_image fr, t) = (f, ts) := Except.ok.inj ho
        obtain ⟨hf, hts⟩ := Prod.mk.inj hpair
        subst hf; subst hts
        exact ⟨rfl, h, List.mem_cons_self _ _, rfl, rfl⟩
      · rw [if_neg h] at hr
        obtain ⟨hf, hlt, hmem, hnext, hret⟩ := ih hr
        exact ⟨hf, hlt, List.mem_cons_of_mem _ hmem, hnext, hret⟩

/-- A failed grab propagates the exception and leaves the deadline as it
was before the call. -/
theorem sentech_error_spec (fps nf acqDur : ℚ) (e : PyErr) (clock : List ℚ)
    (r : SentechPollResult)
    (hr : SentechCam_get_image_on_time fps nf (.error e) acqDur clock = some r) :
    r.outcome = .error e ∧ r.next_frame = nf := by
  induction clock with
  | nil => simp [SentechCam_get_image_on_time] at hr
  | cons t rest ih =>
      rw [SentechCam_get_image_on_time] at hr
      by_cases h : nf < t
      · rw [if_pos h] at hr
        injection hr with hr
        subst hr
        exact ⟨rfl, rfl⟩
      · rw [if_neg h] at hr
        exact ih hr

/-! ## Lemmas about the crop slicing and the normalization steps -/

/-- Entry `(i, j)` of the cropped buffer is entry `(top + i, left + j)` of
the original buffer, for in-range `i` and `j`. -/
theorem crop2_getElem (left right top bottom : Nat) (d : List (List α))
    (i j : Nat) (hi : i < bottom - top) (hj : j < right - left) :
    ((crop2 left right top bottom d)[i]?.bind fun row => row[j]?)
      = d[top + i]?.bind fun row => row[left + j]? := by
  unfold crop2 pySlice
  rw [List.getElem?_map, List.getElem?_take, if_pos hi, List.getElem?_drop]
  cases hrow : d[top + i]? with
  | none => rfl
  | some row =>
      show ((row.drop left).take (right - left))[j]? = row[left + j]?
      rw [List.getElem?_take, if_pos hj, List.getElem?_drop]

/-- The cropped buffer has `bottom - top` rows once the input has at least
`bottom` rows. -/
theorem crop2_length (left right top bottom : Nat) (d : List (List α))
    (hb : bottom ≤ d.length) :
    (crop2 left right top bottom d).length = bottom - top := by
  unfold crop2 pySlice
  rw [List.length_map, List.length_take, List.length_drop]
  omega

/-- Every row of the cropped buffer has length `right - left` once every
input row has length at least `right`. -/
theorem crop2_row_length (left right top bottom : Nat) (d : List (List α))
    (hw : ∀ row ∈ d, right ≤ row.length) :
    ∀ row ∈ crop2 left right top bottom d, row.length = right - left := by
  intro row hr
  unfold crop2 pySlice at hr
  obtain ⟨row0, hrow0, rfl⟩ := List.mem_map.mp hr
  have hmem : row0 ∈ d := List.mem_of_mem_drop (List.mem_of_mem_take hrow0)
  have hlen := hw row0 hmem
  rw [List.length_take, List.length_drop]
  omega

/-- The channel-order swap preserves the number of rows. -/
theorem swapRB_height (f : Frame) : f.swapRB.height = f.height := by
  cases f <;> simp [Frame.swapRB, Frame.height]

/-- The channel-order swap preserves the row lengths. -/
theorem swapRB_rowWidths (f : Frame) : f.swapRB.rowWidths = f.rowWidths := by
  cases f with
  | gray d => rfl
  | color d => simp [Frame.swapRB, Frame.rowWidths, List.map_map, Function.comp_def]

/-- Height of a cropped frame. -/
theorem cropFrame_height (left right top bottom : Nat) (f : Frame)
    (hb : bottom ≤ f.height) :
    (f.cropFrame left right top bottom).height = bottom - top := by
  cases f with
  | gray d => exact crop2_length left right top bottom d hb
  | color d => exact crop2_length left right top bottom d hb

/-- Row lengths of a cropped frame. -/
theorem cropFrame_rowWidths (left right top bottom : Nat) (f : Frame)
    (hw : ∀ w ∈ f.rowWidths, right ≤ w) :
    ∀ w ∈ (f.cropFrame left right top bottom).rowWidths, w = right - left := by
  cases f with
  | gray d =>
      intro w hwmem
      obtain ⟨row, hrow, rfl⟩ := List.mem_map.mp hwmem
      exact crop2_row_length left right top bottom d
        (fun row0 h0 => hw row0.length (List.mem_map_of_mem _ h0)) row hrow
  | color d =>
      intro w hwmem
      obtain ⟨row, hrow, rfl⟩ := List.mem_map.mp hwmem
      exact crop2_row_length left right top bottom d
        (fun row0 h0 => hw row0.length (List.mem_map_of_mem _ h0)) row hrow

/-- With rotation disabled, no crop and a channel flag other than `1`,
the generic backend returns the raw frame untouched. -/
theorem mac_trivial_output (st : MacState) (rb : Frame → ℚ → Frame)
    (f : Frame) (now : ℚ) (h0 : st.rotate = 0) (hc : st.crop = none)
    (hcol : ¬ st.cv2_color = 1) :
    (Mac_get_image_on_time st rb (some f) now).1 = .ok (f, now) := by
  simp only [Mac_get_image_on_time, h0, hc, ne_eq, not_true_eq_false, if_false]
  rw [if_neg fun hh => hcol hh.2]

/-- With rotation disabled, no crop and channel flag `1`, the generic
backend applies exactly the channel swap to a 3-channel frame. -/
theorem mac_swap_output (st : MacState) (rb : Frame → ℚ → Frame)
    (d : List (List (List Nat))) (now : ℚ) (h0 : st.rotate = 0)
    (hc : st.crop = none) (hcol : st.cv2_color = 1) :
    (Mac_get_image_on_time st rb (some (.color d)) now).1
      = .ok ((Frame.color d).swapRB, now) := by
  simp only [Mac_get_image_on_time, h0, hc, ne_eq, not_true_eq_false, if_false]
  rw [if_pos ⟨rfl, hcol⟩]

/-! ## Claim theorems -/

/-- C2: after every successful acquisition in the throttled-poll
scheduler, the new pacing deadline equals exactly
`max (previous_deadline + 1/target_fps) (now + 0.5/target_fps)`, where
`now` is the poll-loop reading at which the deadline was found to have
passed (that reading is the returned timestamp, and the deadline had
indeed passed at it); hence the next scheduled slot is never earlier than
half a period after `now`. -/
theorem C2_deadline_update_formula (fps nf acqDur : ℚ) (fr f : Frame)
    (clock : List ℚ) (r : SentechPollResult) (ts : ℚ) (_hfps : 0 < fps)
    (hr : SentechCam_get_image_on_time fps nf (.ok fr) acqDur clock = some r)
    (ho : r.outcome = .ok (f, ts)) :
    nf < ts ∧
    r.next_frame = max (nf + 1 / fps) (ts + (1 / 2) / fps) ∧
    ts + (1 / 2) / fps ≤ r.next_frame := by
  obtain ⟨-, hlt, -, hnext, -⟩ :=
    sentech_success_spec fps nf acqDur fr clock r f ts hr ho
  exact ⟨hlt, hnext, hnext ▸ le_max_right _ _⟩

/-- C2 witness: a concrete run with `target_fps = 1`, deadline `0` and a
single poll reading at time `1`. -/
theorem C2_deadline_update_formula_witness :
    (0 : ℚ) < 1 ∧
    (SentechPollResult.mk (.ok (Frame.gray [[7]], 1))
        (max ((0 : ℚ) + 1 / 1) (1 + (1 / 2) / 1)) (1 + 0)).next_frame
      = max ((0 : ℚ) + 1 / 1) ((1 : ℚ) + (1 / 2) / 1) ∧
    (1 : ℚ) + (1 / 2) / 1 ≤
      (SentechPollResult.mk (.ok (Frame.gray [[7]], 1))
        (max ((0 : ℚ) + 1 / 1) (1 + (1 / 2) / 1)) (1 + 0)).next_frame :=
  C2_deadline_update_formula 1 0 0 (Frame.gray [[7]]) (Frame.gray [[7]]) [1]
    ⟨.ok (Frame.gray [[7]], 1), max (0 + 1 / 1) (1 + (1 / 2) / 1), 1 + 0⟩ 1
    (by norm_num)
    (by
      simp only [SentechCam_get_image_on_time]
      rw [if_pos (by norm_num : (0 : ℚ) < 1)]
      rfl)
    (by rfl)

/-- C3: in any run of the throttled-poll scheduler with positive
`target_fps`, the timestamps of two successively returned frames differ
by at least half a period, `0.5 / target_fps` (acquisition duration,
grabbed frames and poll clocks arbitrary, in particular instantaneous
acquisition). -/
theorem C3_successive_timestamps_half_period_apart (fps nf acqDur1 acqDur2 : ℚ)
    (fr1 fr2 f1 f2 : Frame) (c1 c2 : List ℚ) (r1 r2 : SentechPollResult)
    (ts1 ts2 : ℚ) (_hfps : 0 < fps)
    (h1 : SentechCam_get_image_on_time fps nf (.ok fr1) acqDur1 c1 = some r1)
    (ho1 : r1.outcome = .ok (f1, ts1))
    (h2 : SentechCam_get_image_on_time fps r1.next_frame (.ok fr2) acqDur2 c2 = some r2)
    (ho2 : r2.outcome = .ok (f2, ts2)) :
    (1 / 2) / fps ≤ ts2 - ts1 := by
  obtain ⟨-, -, -, hnext1, -⟩ :=
    sentech_success_spec fps nf acqDur1 fr1 c1 r1 f1 ts1 h1 ho1
  obtain ⟨-, hlt2, -, -, -⟩ :=
    sentech_success_spec fps r1.next_frame acqDur2 fr2 c2 r2 f2 ts2 h2 ho2
  have hge : ts1 + (1 / 2) / fps ≤ r1.next_frame := hnext1 ▸ le_max_right _ _
  linarith

/-- C3 witness: two concrete successive calls at `target_fps = 1` with
poll readings `1` and `2`: the timestamps are `1` and `2`, one period
(hence at least half a period) apart. -/
theorem C3_successive_timestamps_half_period_apart_witness :
    ((1 : ℚ) / 2) / 1 ≤ 2 - 1 :=
  C3_successive_timestamps_half_period_apart 1 0 0 0
    (Frame.gray [[7]]) (Frame.gray [[7]]) (Frame.gray [[7]]) (Frame.gray [[7]])
    [1] [2]
    ⟨.ok (Frame.gray [[7]], 1), max (0 + 1 / 1) (1 + (1 / 2) / 1), 1 + 0⟩
    ⟨.ok (Frame.gray [[7]], 2),
      max (max (0 + 1 / 1) (1 + (1 / 2) / 1) + 1 / 1) (2 + (1 / 2) / 1), 2 + 0⟩
    1 2 (by norm_num)
    (by
      simp only [SentechCam_get_image_on_time]
      rw [if_pos (by norm_num : (0 : ℚ) < 1)]
      rfl)
    (by rfl)
    (by
      simp only [SentechCam_get_image_on_time]
      rw [if_pos (by rw [max_lt_iff]; constructor <;> norm_num)]
      rfl)
    (by rfl)

/-- C6 counterexample: a concrete throttled-poll run at `target_fps = 1`,
deadline `0`, poll reading at time `1`, acquisition taking `2` seconds.
The call returns at wall-clock time `3` (the instant immediately after
the acquisition and the deadline-update computation), yet the returned
timestamp is `1`: the timestamp is not a wall-clock reading taken after
the `next_frame` update computation — it is the poll reading taken before
the acquisition. -/
theorem C6_counterexample :
    SentechCam_get_image_on_time 1 0 (.ok (Frame.gray [[7]])) 2 [1]
      = some ⟨.ok (Frame.gray [[7]], 1), max (0 + 1 / 1) (1 + (1 / 2) / 1), 1 + 2⟩ ∧
    (1 : ℚ) ≠ 1 + 2 := by
  constructor
  · simp only [SentechCam_get_image_on_time]
    rw [if_pos (by norm_num : (0 : ℚ) < 1)]
    rfl
  · norm_num

/-- C6 amended: the timestamp paired with each returned frame is the
poll-loop reading `cur_time` at which the deadline was found to have
passed, taken before the acquisition call (the call itself only returns
`acqDur` later, at `cur_time + acqDur`). -/
theorem C6_timestamp_is_preacquisition_poll_reading (fps nf acqDur : ℚ)
    (fr f : Frame) (clock : List ℚ) (r : SentechPollResult) (ts : ℚ)
    (hr : SentechCam_get_image_on_time fps nf (.ok fr) acqDur clock = some r)
    (ho : r.outcome = .ok (f, ts)) :
    nf < ts ∧ ts ∈ clock ∧ r.ret_time = ts + acqDur := by
  obtain ⟨-, hlt, hmem, -, hret⟩ :=
    sentech_success_spec fps nf acqDur fr clock r f ts hr ho
  exact ⟨hlt, hmem, hret⟩

/-- C6 amended witness: the run of the counterexample, instantiated. -/
theorem C6_timestamp_is_preacquisition_poll_reading_witness :
    (0 : ℚ) < 1 ∧ (1 : ℚ) ∈ [(1 : ℚ)] ∧
    (SentechPollResult.mk (.ok (Frame.gray [[7]], 1))
        (max ((0 : ℚ) + 1 / 1) (1 + (1 / 2) / 1)) (1 + 2)).ret_time = 1 + 2 :=
  C6_timestamp_is_preacquisition_poll_reading 1 0 2 (Frame.gray [[7]])
    (Frame.gray [[7]]) [1]
    ⟨.ok (Frame.gray [[7]], 1), max (0 + 1 / 1) (1 + (1 / 2) / 1), 1 + 2⟩ 1
    (by
      simp only [SentechCam_get_image_on_time]
      rw [if_pos (by norm_num : (0 : ℚ) < 1)]
      rfl)
    (by rfl)

/-- C9: when a single acquisition attempt fails, both backends raise the
capture exception without retrying and leave the session state exactly as
it was before the call: the generic backend returns
`CameraError` with `last_cap_read` (and all other attributes) unchanged,
and the SDK backend propagates the grab exception with the pacing
deadline `next_frame` unchanged, so the caller may retry. -/
theorem C9_capture_failure_propagates_state_unchanged :
    (∀ (st : MacState) (rb : Frame → ℚ → Frame) (now : ℚ),
        Mac_get_image_on_time st rb none now =
          (.error (.cameraError "OpenCV VideoCapture.read did not return an image!"),
           st)) ∧
    (∀ (fps nf acqDur : ℚ) (e : PyErr) (clock : List ℚ) (r : SentechPollResult),
        SentechCam_get_image_on_time fps nf (.error e) acqDur clock = some r →
          r.outcome = .error e ∧ r.next_frame = nf) :=
  ⟨fun _ _ _ => rfl,
   fun fps nf acqDur e clock r hr => sentech_error_spec fps nf acqDur e clock r hr⟩

/-- C9 witness: a concrete failed read on the generic backend and a
concrete failed grab on the SDK backend. -/
theorem C9_capture_failure_propagates_state_unchanged_witness :
    (Mac_get_image_on_time ⟨0, false, 0, none, 0, 30, 0⟩ (fun f _ => f) none 5 =
      (.error (.cameraError "OpenCV VideoCapture.read did not return an image!"),
       ⟨0, false, 0, none, 0, 30, 0⟩)) ∧
    ((SentechPollResult.mk (.error (.cameraError "grab failed")) 0 (1 + 0)).outcome
        = .error (.cameraError "grab failed") ∧
     (SentechPollResult.mk (.error (.cameraError "grab failed")) 0 (1 + 0)).next_frame = 0) :=
  ⟨C9_capture_failure_propagates_state_unchanged.1 ⟨0, false, 0, none, 0, 30, 0⟩
      (fun f _ => f) 5,
   C9_capture_failure_propagates_state_unchanged.2 1 0 0
      (.cameraError "grab failed") [1]
      ⟨.error (.cameraError "grab failed"), 0, 1 + 0⟩
      (by
        simp only [SentechCam_get_image_on_time]
        rw [if_pos (by norm_num : (0 : ℚ) < 1)])⟩

/-- C1 counterexample: the same Device Configuration (crop
`(left, right, top, bottom) = (0, 1, 0, 1)`, rotation disabled) and the
same raw frame `[[1, 2], [3, 4]]` given to both backends.  The generic
backend's `get_image_on_time` crops the frame to `[[1]]`; the SDK
backend's `get_image_on_time` returns it unchanged (`np.uint8` only).
The two post-processings are therefore not equal as functions of the raw
frame and the configuration. -/
theorem C1_counterexample :
    (Mac_get_image_on_time ⟨0, false, 0, some (0, 1, 0, 1), 0, 30, 0⟩
        (fun f _ => f) (some (Frame.gray [[1, 2], [3, 4]])) 5).1
      = .ok (Frame.gray [[1]], 5) ∧
    SentechCam_get_image_on_time 30 0 (.ok (Frame.gray [[1, 2], [3, 4]])) 0 [1]
      = some ⟨.ok (Frame.gray [[1, 2], [3, 4]], 1),
              max (0 + 1 / 30) (1 + (1 / 2) / 30), 1 + 0⟩ ∧
    Frame.gray [[1]] ≠ Frame.gray [[1, 2], [3, 4]] := by
  refine ⟨?_, ?_, by decide⟩
  · rfl
  · simp only [SentechCam_get_image_on_time]
    rw [if_pos (by norm_num : (0 : ℚ) < 1)]
    rfl

/-- C1 amended: the two backends do not share the normalization pipeline.
The SDK backend's `get_image_on_time` applies no rotation, no crop and no
channel correction for any configuration: the returned frame is always
exactly the uint8-converted grabbed frame.  The generic backend does
apply the rotate-crop-channel pipeline, and the two backends'
post-processing of the same raw frame coincides (up to the uint8 cast)
exactly on configurations in which all three steps are disabled:
rotation `0`, no crop, channel flag not `1`. -/
theorem C1_sdk_backend_applies_no_normalization (fps nf acqDur : ℚ)
    (fr f : Frame) (clock : List ℚ) (r : SentechPollResult) (ts : ℚ)
    (hr : SentechCam_get_image_on_time fps nf (.ok fr) acqDur clock = some r)
    (ho : r.outcome = .ok (f, ts)) :
    f = np_uint8 fr ∧
    (∀ (st : MacState) (rb : Frame → ℚ → Frame) (now : ℚ),
        st.rotate = 0 → st.crop = none → ¬ st.cv2_color = 1 →
        (Mac_get_image_on_time st rb (some fr) now).1 = .ok (fr, now)) := by
  obtain ⟨hf, -, -, -, -⟩ := sentech_success_spec fps nf acqDur fr clock r f ts hr ho
  exact ⟨hf, fun st rb now h0 hc hcol => mac_trivial_output st rb fr now h0 hc hcol⟩

/-- C1 amended witness: a concrete SDK run returning the raw frame
unchanged, and a concrete trivial configuration on which the generic
backend is also the identity. -/
theorem C1_sdk_backend_applies_no_normalization_witness :
    Frame.gray [[7]] = np_uint8 (Frame.gray [[7]]) ∧
    (Mac_get_image_on_time ⟨0, false, 0, none, 0, 30, 0⟩ (fun f _ => f)
        (some (Frame.gray [[7]])) 5).1 = .ok (Frame.gray [[7]], 5) :=
  have h := C1_sdk_backend_applies_no_normalization 1 0 0 (Frame.gray [[7]])
    (Frame.gray [[7]]) [1]
    ⟨.ok (Frame.gray [[7]], 1), max (0 + 1 / 1) (1 + (1 / 2) / 1), 1 + 0⟩ 1
    (by
      simp only [SentechCam_get_image_on_time]
      rw [if_pos (by norm_num : (0 : ℚ) < 1)]
      rfl)
    (by rfl)
  ⟨h.1, h.2 ⟨0, false, 0, none, 0, 30, 0⟩ (fun f _ => f) 5 rfl rfl (by norm_num)⟩

/-- C4 counterexample: a Device Configuration with a crop rectangle
available but no resolution.  The claim says `open` should succeed (it
fails only when neither is available); the code raises
`CameraError("Resolution is not set!")` regardless of the crop. -/
theorem C4_counterexample :
    SentechCam_set_im_size (some (0, 10, 0, 20)) none
      = .error (.cameraError "Resolution is not set!") ∧
    (some (0, 10, 0, 20) : Option (Int × Int × Int × Int)) ≠ none := by
  exact ⟨rfl, by simp⟩

/-- C4 amended: the SDK-backend size resolution fails with `CameraError`
if and only if `resolution` is not available — a crop rectangle alone
does not prevent the failure; when `resolution` is available, the
effective frame size is derived from the crop rectangle (overriding the
resolution) if crop is configured, else it is the resolution itself. -/
theorem C4_im_size_requires_resolution (crop : Option (Int × Int × Int × Int))
    (res : Option (Int × Int)) :
    ((SentechCam_set_im_size crop res
        = .error (.cameraError "Resolution is not set!")) ↔ res = none) ∧
    (∀ w h : Int, res = some (w, h) →
        SentechCam_set_im_size crop res
          = .ok (match crop with
                 | none => (w, h)
                 | some (_l, r, t, b) => (b - t, r - _l))) := by
  refine ⟨⟨?_, ?_⟩, ?_⟩
  · intro he
    cases res with
    | none => rfl
    | some p =>
        obtain ⟨w, h⟩ := p
        simp [SentechCam_set_im_size] at he
  · intro h
    subst h
    rfl
  · intro w h hres
    subst hres
    rfl

/-- C4 amended witness: with crop `(0, 10, 0, 20)` and resolution
`(5, 6)` the effective size is the crop-derived `(20 - 0, 10 - 0)`. -/
theorem C4_im_size_requires_resolution_witness :
    SentechCam_set_im_size (some (0, 10, 0, 20)) (some (5, 6))
      = .ok (20 - 0, 10 - 0) :=
  (C4_im_size_requires_resolution (some (0, 10, 0, 20)) (some (5, 6))).2 5 6 rfl

/-- C5: with the file-source marker `-1` as device id, the generic
backend constructor takes the rejection branch; but that branch evaluates
the identifier `DLCLiveCameraError`, which is not bound in
`mac_opencv.py` (only `Camera` and `CameraError` are imported), so Python
raises `NameError` instead of the intended camera configuration error.
Either way no session state is produced (the session stays
uninitialized and no device is opened). -/
theorem C5_file_source_marker_rejected (rotate : ℚ)
    (crop : Option (Nat × Nat × Nat × Nat)) (fps : ℚ) :
    Mac_OpenCVCam_init (-1) rotate crop fps
      = .error (.nameError "DLCLiveCameraError") ∧
    ∀ st : MacState, Mac_OpenCVCam_init (-1) rotate crop fps ≠ .ok st := by
  refine ⟨rfl, ?_⟩
  intro st h
  simp [Mac_OpenCVCam_init] at h

/-- C7: the crop step selects exactly rows `[top, bottom)` and columns
`[left, right)` — entry `(i, j)` of the cropped buffer is entry
`(top + i, left + j)` of the (possibly rotated) input, for every input —
and consequently the frame returned by the generic backend under a crop
configuration has shape `(bottom - top, right - left)` whenever the
(possibly rotated) frame is at least that large. -/
theorem C7_crop_selects_rows_and_columns (st : MacState)
    (rb : Frame → ℚ → Frame) (f : Frame) (now : ℚ)
    (left right top bottom : Nat)
    (hc : st.crop = some (left, right, top, bottom))
    (hb : bottom ≤ (if st.rotate ≠ 0 then rb f st.rotate else f).height)
    (hw : ∀ w ∈ (if st.rotate ≠ 0 then rb f st.rotate else f).rowWidths,
        right ≤ w) :
    (∀ (d : List (List Nat)) (i j : Nat),
        i < bottom - top → j < right - left →
        ((crop2 left right top bottom d)[i]?.bind fun row => row[j]?)
          = d[top + i]?.bind fun row => row[left + j]?) ∧
    (∀ (fr : Frame) (ts : ℚ),
        (Mac_get_image_on_time st rb (some f) now).1 = .ok (fr, ts) →
        fr.height = bottom - top ∧
        ∀ w ∈ fr.rowWidths, w = right - left) := by
  constructor
  · intro d i j hi hj
    exact crop2_getElem left right top bottom d i j hi hj
  · intro fr ts hout
    simp only [Mac_get_image_on_time, hc] at hout
    set g := if st.rotate ≠ 0 then rb f st.rotate else f with hg
    by_cases hcol :
        (g.cropFrame left right top bottom).ndim = 3 ∧ st.cv2_color = 1
    · rw [if_pos hcol] at hout
      have hfr : (g.cropFrame left right top bottom).swapRB = fr :=
        (Prod.mk.inj (Except.ok.inj hout)).1
      subst hfr
      constructor
      · rw [swapRB_height]
        exact cropFrame_height left right top bottom g hb
      · rw [swapRB_rowWidths]
        exact cropFrame_rowWidths left right top bottom g hw
    · rw [if_neg hcol] at hout
      have hfr : g.cropFrame left right top bottom = fr :=
        (Prod.mk.inj (Except.ok.inj hout)).1
      subst hfr
      exact ⟨cropFrame_height left right top bottom g hb,
             cropFrame_rowWidths left right top bottom g hw⟩

/-- C7 witness: crop `(left, right, top, bottom) = (1, 3, 0, 2)` on the
raw frame `[[1, 2, 3], [4, 5, 6], [7, 8, 9]]` with rotation disabled:
the returned frame `[[2, 3], [5, 6]]` has shape `(2, 2)` and its entry
`(0, 1)` is entry `(0, 2)` of the input. -/
theorem C7_crop_selects_rows_and_columns_witness :
    (((crop2 1 3 0 2 [[1, 2, 3], [4, 5, 6], [7, 8, 9]])[0]?.bind
        fun row => row[1]?)
      = [[1, 2, 3], [4, 5, 6], [7, 8, 9]][0 + 0]?.bind fun row => row[1 + 1]?) ∧
    ((Frame.gray [[2, 3], [5, 6]]).height = 2 - 0 ∧
     ∀ w ∈ (Frame.gray [[2, 3], [5, 6]]).rowWidths, w = 3 - 1) :=
  have h := C7_crop_selects_rows_and_columns
    ⟨0, false, 0, some (1, 3, 0, 2), 0, 30, 0⟩ (fun f _ => f)
    (Frame.gray [[1, 2, 3], [4, 5, 6], [7, 8, 9]]) 5 1 3 0 2
    rfl (by decide) (by decide)
  ⟨h.1 [[1, 2, 3], [4, 5, 6], [7, 8, 9]] 0 1 (by decide) (by decide),
   h.2 (Frame.gray [[2, 3], [5, 6]]) 5 rfl⟩

/-- C8: under a valid configuration with rotation `0` and no crop, the
generic backend returns the raw frame's pixel data unchanged except for
the channel-order swap, and the swap happens exactly when the frame is
3-channel and the recorded channel mode is the non-reference one
(`cv2_color = 1`): grayscale frames always pass through unchanged,
3-channel frames are swapped iff the flag is `1`, and the swap itself
only reverses each pixel's channel list. -/
theorem C8_identity_modulo_channel_swap (st : MacState)
    (rb : Frame → ℚ → Frame) (now : ℚ)
    (h0 : st.rotate = 0) (hc : st.crop = none) :
    (∀ d : List (List Nat),
        (Mac_get_image_on_time st rb (some (.gray d)) now).1
          = .ok (.gray d, now)) ∧
    (∀ d : List (List (List Nat)), st.cv2_color = 1 →
        (Mac_get_image_on_time st rb (some (.color d)) now).1
          = .ok ((Frame.color d).swapRB, now)) ∧
    (∀ d : List (List (List Nat)), ¬ st.cv2_color = 1 →
        (Mac_get_image_on_time st rb (some (.color d)) now).1
          = .ok (.color d, now)) ∧
    (∀ (d : List (List (List Nat))) (i j : Nat),
        ((d.map fun row => row.map List.reverse)[i]?.bind fun row => row[j]?)
          = (d[i]?.bind fun row => row[j]?).map List.reverse) := by
  refine ⟨?_, ?_, ?_, ?_⟩
  · intro d
    simp only [Mac_get_image_on_time, h0, hc, ne_eq, not_true_eq_false, if_false]
    rw [if_neg (fun hh => by simp [Frame.ndim] at hh)]
  · intro d hcol
    exact mac_swap_output st rb d now h0 hc hcol
  · intro d hcol
    exact mac_trivial_output st rb (.color d) now h0 hc hcol
  · intro d i j
    rw [List.getElem?_map]
    cases hrow : d[i]? with
    | none => rfl
    | some row =>
        show (row.map List.reverse)[j]? = (row[j]?).map List.reverse
        exact List.getElem?_map List.reverse row j

/-- C8 witness: a grayscale frame passes unchanged, and a 3-channel frame
with flag `1` comes back with each pixel's channels reversed. -/
theorem C8_identity_modulo_channel_swap_witness :
    ((Mac_get_image_on_time ⟨0, false, 0, none, 1, 30, 0⟩ (fun f _ => f)
        (some (.gray [[7]])) 5).1 = .ok (.gray [[7]], 5)) ∧
    ((Mac_get_image_on_time ⟨0, false, 0, none, 1, 30, 0⟩ (fun f _ => f)
        (some (.color [[[1, 2, 3]]])) 5).1
      = .ok ((Frame.color [[[1, 2, 3]]]).swapRB, 5)) :=
  have h := C8_identity_modulo_channel_swap ⟨0, false, 0, none, 1, 30, 0⟩
    (fun f _ => f) 5 rfl rfl
  ⟨h.1 [[7]], h.2.1 [[[1, 2, 3]]] rfl⟩

/-- C10: the axis order of the effective frame size differs between the
two configuration paths of the SDK backend: with only a resolution
`(w, h)` the size is `(w, h)` (width first), with a crop
`(left, right, top, bottom)` it is `(bottom - top, right - left)` (height
first); and `set_capture_device` forwards `im_size` verbatim as the
device image shape. -/
theorem C10_im_size_axis_order (l r t b w h : Int) (sz : Int × Int)
    (exposure gain : Option ℚ) :
    SentechCam_set_im_size none (some (w, h)) = .ok (w, h) ∧
    SentechCam_set_im_size (some (l, r, t, b)) (some (w, h))
      = .ok (b - t, r - l) ∧
    (SentechCam_set_capture_device sz exposure gain).image_shape = some sz := by
  exact ⟨rfl, rfl, rfl⟩

end DLCLiveGUI
